import Mathlib

/-!
Verification development for the EmailAutomator query-routing layer.

The embedding follows two source files:
  - mcp_servers/tools_server.py: the static tool catalog and the
    keyword-scoring matcher match_tool_to_query;
  - langchain_scripts/langchain_agent.py: the clarification gate
    check_clarification, the execution planner, and process_query.

Python strings are modelled as Lean String, the substring test
(needle in hay) as an explicit list-based search, Python floats as ℚ
(all arithmetic in play is exact small-denominator division and
comparison, where ℚ and IEEE doubles agree), and Python dicts whose key
sets vary across branches as structures with Option fields.  Fields of
the response envelope that depend on wall-clock time (id,
processingTime) are not modelled.
-/

namespace LasRouter

section Embedding

attribute [local semireducible] Rat.mul Rat.inv Rat.add Rat.sub

/-- Tests whether the first list is a prefix of the second,
using Boolean character equality. -/
def listStartsWith : List Char → List Char → Bool
  | [], _ => true
  | _ :: _, [] => false
  | p :: ps, c :: cs => p == c && listStartsWith ps cs

/-- Tests whether pat occurs as a contiguous sublist of the second list,
mirroring the Python substring operator. -/
def hasSub (pat : List Char) : List Char → Bool
  | [] => pat.isEmpty
  | c :: cs => listStartsWith pat (c :: cs) || hasSub pat cs

/-- Python needle in hay, on strings. -/
def strIn (needle hay : String) : Bool :=
  hasSub needle.toList hay.toList

/-- Python str.lower, faithful on the ASCII text used throughout. -/
def lowerStr (s : String) : String :=
  String.mk (s.toList.map Char.toLower)

/-- Python tool_name.replace("_", " "). -/
def spacedName (s : String) : String :=
  String.mk (s.toList.map (fun c => if c = '_' then ' ' else c))

/-- One entry of AVAILABLE_TOOLS in tools_server.py. -/
structure Tool where
  name : String
  description : String
  compatible_scripts : List String
  keywords : List String
  output_type : String
deriving DecidableEq

def depth_plotter : Tool :=
  { name := "depth_plotter"
    description := "Creates depth plots and visualizations from LAS file depth data"
    compatible_scripts := ["depth_visualization.py"]
    keywords := ["depth", "plot", "visualization", "curve", "log"]
    output_type := "visualization" }

def gamma_analyzer : Tool :=
  { name := "gamma_analyzer"
    description := "Analyzes gamma ray data for geological formations"
    compatible_scripts := ["gamma_analysis.py"]
    keywords := ["gamma", "ray", "formation", "geology", "analysis"]
    output_type := "analysis" }

def porosity_calculator : Tool :=
  { name := "porosity_calculator"
    description := "Calculates porosity from neutron and density logs"
    compatible_scripts := ["porosity_calculator.py"]
    keywords := ["porosity", "neutron", "density", "reservoir", "calculation"]
    output_type := "calculation" }

def permeability_estimator : Tool :=
  { name := "permeability_estimator"
    description := "Estimates permeability from porosity and other log data"
    compatible_scripts := ["permeability_analysis.py"]
    keywords := ["permeability", "flow", "reservoir", "estimation", "analysis"]
    output_type := "estimation" }

def saturation_analyzer : Tool :=
  { name := "saturation_analyzer"
    description := "Analyzes water and hydrocarbon saturation"
    compatible_scripts := ["saturation_analysis.py"]
    keywords := ["saturation", "water", "hydrocarbon", "oil", "gas"]
    output_type := "analysis" }

/-- The static catalog AVAILABLE_TOOLS, in dict insertion order
(Python dict iteration preserves insertion order). -/
def AVAILABLE_TOOLS : List Tool :=
  [depth_plotter, gamma_analyzer, porosity_calculator,
   permeability_estimator, saturation_analyzer]

/-- The keywords of t found as substrings of the lower-cased query,
in declaration order (the inner loop of match_tool_to_query). -/
def keywordHits (ql : String) (t : Tool) : List String :=
  t.keywords.filter (fun k => strIn k ql)

/-- The name-mention bonus condition of match_tool_to_query:
the identifier with underscores replaced by spaces, or the raw
identifier, occurs in the lower-cased query. -/
def nameMatchB (ql : String) (t : Tool) : Bool :=
  strIn (spacedName t.name) ql || strIn t.name ql

/-- The integer score of one tool: +1 per matched keyword,
+2 for a name mention. -/
def toolScore (ql : String) (t : Tool) : Nat :=
  (keywordHits ql t).length + (if nameMatchB ql t then 2 else 0)

/-- The matched_keywords list accumulated for one tool: the matched
keywords in order, then the identifier itself when the name bonus
fired. -/
def matchedKeywords (ql : String) (t : Tool) : List String :=
  keywordHits ql t ++ (if nameMatchB ql t then [t.name] else [])

/-- The confidence formula of match_tool_to_query:
min(score / (len(keywords) + 2), 1.0). -/
def toolConfidence (ql : String) (t : Tool) : ℚ :=
  min ((toolScore ql t : ℚ) / ((t.keywords.length : ℚ) + 2)) 1

/-- The tools entered into tool_scores: those with score > 0,
in catalog order. -/
def scoringTools (ql : String) (catalog : List Tool) : List Tool :=
  catalog.filter (fun t => 0 < toolScore ql t)

/-- Python max over the remaining items with the score as key: the
accumulator is replaced only on a strictly greater score, so the first
maximal element wins. -/
def pyMax (ql : String) (acc : Tool) : List Tool → Tool
  | [] => acc
  | u :: us => pyMax ql (if toolScore ql u > toolScore ql acc then u else acc) us

/-- The best-scoring tool of a catalog, none when no tool scores
above zero. -/
def bestTool (ql : String) (catalog : List Tool) : Option Tool :=
  match scoringTools ql catalog with
  | [] => none
  | t :: rest => some (pyMax ql t rest)

/-- The result dictionary of match_tool_to_query.  The no-match branch
carries success=False and a message but no tool, confidence or
matched_keywords keys; the match branch carries success=True with no
message key.  Absent keys are modelled as none / []. -/
structure MatchResult where
  success : Bool
  tool : Option String
  confidence : Option ℚ
  matched_keywords : List String
  message : Option String
deriving DecidableEq

/-- match_tool_to_query generalised over the catalog it scores. -/
def matchToolOn (catalog : List Tool) (query : String) : MatchResult :=
  let ql := lowerStr query
  match bestTool ql catalog with
  | none =>
      { success := false
        tool := none
        confidence := none
        matched_keywords := []
        message := some "No matching tools found for the query" }
  | some t =>
      { success := true
        tool := some t.name
        confidence := some (toolConfidence ql t)
        matched_keywords := matchedKeywords ql t
        message := none }

/-- match_tool_to_query of tools_server.py, over the static catalog. -/
def match_tool_to_query (query : String) : MatchResult :=
  matchToolOn AVAILABLE_TOOLS query

/-- One entry of the plan list built by _create_execution_plan:
step index, description, target server, action, and the params
mapping as a key-value list. -/
structure ExecStep where
  step : Nat
  description : String
  tool : String
  action : String
  params : List (String × String)
deriving DecidableEq

/-- The script-selection loop shared by _create_execution_plan and
process_query: the first available script whose name contains the tool
name or is contained in it.  Scripts are identified by their name
field. -/
def findMatchingScript (tool_name : String) (scripts : List String) : Option String :=
  scripts.find? (fun s => strIn tool_name s || strIn s tool_name)

/-- _create_execution_plan of langchain_agent.py.  It always emits the
fixed three-step plan; when no LAS file is available it silently
substitutes the default sample_well_01. -/
def createExecutionPlan (tool_match : MatchResult)
    (files scripts : List String) (outputPath : String) : List ExecStep :=
  let tool_name := tool_match.tool.getD ""
  let matching_script := findMatchingScript tool_name scripts
  let selected_file := files.headD "sample_well_01"
  [ { step := 1
      description := "Load LAS file: " ++ selected_file ++ ".las"
      tool := "mcp_resources_server"
      action := "load_las_file"
      params := [("file", selected_file)] },
    { step := 2
      description := "Execute " ++ tool_name ++ " analysis"
      tool := "mcp_scripts_server"
      action := "execute_script"
      params := [("script", matching_script.getD tool_name),
                 ("las_file", selected_file), ("tool", tool_name)] },
    { step := 3
      description := "Generate output file"
      tool := "file_system"
      action := "save_output"
      params := [("output_dir", outputPath)] } ]

/-- The body of the enumerate loop of _generate_suggestions, at index
i with tool t: pair the tool description with the i-th file, else with
the first file, else stand alone. -/
def suggestionForTool (files : List String) (it : Nat × Tool) : String :=
  match files with
  | [] => it.2.description
  | f0 :: _ =>
      if it.1 < files.length then
        it.2.description ++ " with " ++ files.getD it.1 "" ++ ".las"
      else
        it.2.description ++ " with " ++ f0 ++ ".las"

/-- _generate_suggestions of langchain_agent.py: up to three
tool-based suggestions, then up to two script-based ones, truncated to
five. -/
def generateSuggestions (tools : List Tool) (files scripts : List String) : List String :=
  (((tools.take 3).enum.map (suggestionForTool files)) ++
    (scripts.take 2).map (fun s =>
      match files with
      | [] => "Run " ++ s ++ " script"
      | f0 :: _ => "Run " ++ s ++ " script with " ++ f0 ++ ".las")).take 5

/-- The response dictionary of check_clarification. -/
structure ClarifyResult where
  needsClarification : Bool
  confidence : ℚ
  suggestions : List String
  message : String
  agentPlan : Option (List ExecStep)
deriving DecidableEq

/-- check_clarification of langchain_agent.py, on the success path
where the MCP tools server answered (tool_match is the dictionary
returned by match_tool_to_query, hence never None).  The loaded agent
state is passed explicitly: the tool list and script list for
suggestions, the LAS file list, and the configured output path. -/
def check_clarification (tools : List Tool) (scripts files : List String)
    (outputPath query : String) : ClarifyResult :=
  let tool_match := match_tool_to_query query
  if tool_match.confidence.getD 0 > 7/10 then
    { needsClarification := false
      confidence := tool_match.confidence.getD (4/5)
      suggestions := []
      message := "I can create an execution plan for your analysis."
      agentPlan := some (createExecutionPlan tool_match files scripts outputPath) }
  else
    { needsClarification := true
      confidence := tool_match.confidence.getD (3/10)
      suggestions := generateSuggestions tools files scripts
      message := "I need more information to create an execution plan."
      agentPlan := none }

/-- One element of the steps list of the process_query response. -/
structure StepRecord where
  tool : String
  action : String
  result : String
  confidence : ℚ
deriving DecidableEq

/-- The finalResult record of the process_query response. -/
structure FinalResult where
  script : String
  lasFile : String
  tool : String
  confidence : ℚ
  reasoning : String
deriving DecidableEq

/-- The process_query response envelope.  The id and processingTime
fields are wall-clock derived and not modelled. -/
structure Envelope where
  query : String
  steps : List StepRecord
  finalResult : FinalResult
  status : String
  errorMessage : Option String
deriving DecidableEq

/-- The message of the exception raised by process_query when no tool
matches with sufficient confidence. -/
def noMatchMessage : String :=
  "Could not match query to any available tool with sufficient confidence"

/-- process_query of langchain_agent.py, on the path where the MCP
tools server answered.  The only exception modelled is the explicit
raise on insufficient confidence; its handler builds the error
envelope of the except branch. -/
def process_query (files scripts : List String) (query : String) : Envelope :=
  let tool_match := match_tool_to_query query
  if tool_match.confidence.getD 0 < 3/10 then
    { query := query
      steps := []
      finalResult :=
        { script := ""
          lasFile := ""
          tool := ""
          confidence := 0
          reasoning := "Error: " ++ noMatchMessage }
      status := "error"
      errorMessage := some noMatchMessage }
  else
    let selected_file := files.headD "sample_well_01"
    let tool_name := tool_match.tool.getD ""
    let matching_script := findMatchingScript tool_name scripts
    { query := query
      steps :=
        [ { tool := "mcp_tools_server"
            action := "match_tool_to_query"
            result := "Matched query to " ++ tool_name
            confidence := tool_match.confidence.getD (4/5) },
          { tool := "mcp_resources_server"
            action := "select_las_file"
            result := "Selected " ++ selected_file ++ ".las from available files"
            confidence := 9/10 },
          { tool := "mcp_scripts_server"
            action := "execute_script"
            result := "Executed " ++ matching_script.getD tool_name
            confidence := 19/20 } ]
      finalResult :=
        { script := matching_script.getD tool_name ++ ".py"
          lasFile := selected_file ++ ".las"
          tool := tool_name
          confidence := tool_match.confidence.getD (4/5)
          reasoning := "Matched query to " ++ tool_name ++ " using MCP tools server" }
      status := "completed"
      errorMessage := none }

/-- Modelled from the spec: the coarse-intent classification that
section 4.3 step 2 ascribes to the matcher; no such step exists in
match_tool_to_query of tools_server.py.  The word sets are the ones
the spec lists. -/
def specCoarseIntent (ql : String) : String :=
  if ["plot", "chart", "visualize", "graph", "show"].any (fun w => strIn w ql) then
    "visualization"
  else if ["analyze", "calculate", "determine", "find"].any (fun w => strIn w ql) then
    "analysis"
  else
    "general"

/-- Modelled from the spec: the per-tool score that section 4.3 step 3
ascribes to the matcher, namely the keyword and name terms plus a +1
term when the coarse intent equals the output category.  To be
compared against toolScore, the score the code computes. -/
def specScoreWithIntent (ql : String) (t : Tool) : Nat :=
  toolScore ql t + (if specCoarseIntent ql = t.output_type then 1 else 0)

/-- Filtering with a pointwise weaker predicate keeps at most as many
elements. -/
lemma filterLength_mono {α : Type} (p r : α → Bool) :
    ∀ l : List α, (∀ a ∈ l, p a = true → r a = true) →
      (l.filter p).length ≤ (l.filter r).length := by
  intro l
  induction l with
  | nil => intro _; simp
  | cons a l ih =>
      intro h
      have htail : (l.filter p).length ≤ (l.filter r).length :=
        ih fun x hx hpx => h x (List.mem_cons_of_mem a hx) hpx
      by_cases hp : p a = true
      · have hr : r a = true := h a (List.mem_cons_self a l) hp
        simpa [List.filter_cons, hp, hr] using Nat.succ_le_succ htail
      · by_cases hr : r a = true
        · simp only [List.filter_cons, if_neg, hr]
          simp only [Bool.not_eq_true] at hp
          simp [hp]
          exact Nat.le_trans htail (Nat.le_succ _)
        · simp only [Bool.not_eq_true] at hp hr
          simpa [List.filter_cons, hp, hr] using htail

/-- A catalog in which every tool scores zero contributes no scoring
tools. -/
lemma scoringTools_eq_nil (ql : String) (catalog : List Tool)
    (h : ∀ t ∈ catalog, toolScore ql t = 0) :
    scoringTools ql catalog = [] := by
  unfold scoringTools
  rw [List.filter_eq_nil_iff]
  intro t ht
  simp [h t ht]

/-- When no tool scores, matchToolOn returns the degenerate no-match
record: success false, no tool key, no confidence key. -/
lemma matchToolOn_all_zero (catalog : List Tool) (q : String)
    (h : ∀ t ∈ catalog, toolScore (lowerStr q) t = 0) :
    (matchToolOn catalog q).success = false ∧
    (matchToolOn catalog q).tool = none ∧
    (matchToolOn catalog q).confidence = none := by
  have hs : scoringTools (lowerStr q) catalog = [] :=
    scoringTools_eq_nil (lowerStr q) catalog h
  simp [matchToolOn, bestTool, hs]

/-- C2 counterexample input: the query analyze gamma is classified
as analysis intent by the spec and gamma_analyzer has output category
analysis, yet the score the code computes is 1 (the gamma keyword
only) while the spec formula with its +1 intent term gives 2. -/
theorem c2_intent_term_cex :
    specCoarseIntent (lowerStr "analyze gamma") = gamma_analyzer.output_type ∧
    toolScore (lowerStr "analyze gamma") gamma_analyzer = 1 ∧
    specScoreWithIntent (lowerStr "analyze gamma") gamma_analyzer = 2 ∧
    toolScore (lowerStr "analyze gamma") gamma_analyzer ≠
      specScoreWithIntent (lowerStr "analyze gamma") gamma_analyzer := by
  decide

/-- C2 amended: match_tool_to_query performs no intent
classification: a tool's score is a function of which of its keywords
occur in the lower-cased query and whether its name occurs, and of
nothing else, so two queries that agree on those agree on the score
even when one contains intent words and the other does not. -/
theorem toolScore_no_intent_term (q1 q2 : String) (t : Tool)
    (hk : ∀ k ∈ t.keywords, strIn k q1 = strIn k q2)
    (hn : nameMatchB q1 t = nameMatchB q2 t) :
    toolScore q1 t = toolScore q2 t := by
  have hhits : keywordHits q1 t = keywordHits q2 t := by
    unfold keywordHits
    exact List.filter_congr hk
  simp [toolScore, hhits, hn]

/-- C2 witness: analyze gamma (an intent word plus a keyword) and
gamma data please (the keyword alone) agree on keyword and name
matches for gamma_analyzer, so their scores coincide. -/
theorem toolScore_no_intent_term_witness :
    ((∀ k ∈ gamma_analyzer.keywords,
        strIn k "analyze gamma" = strIn k "gamma data please") ∧
      nameMatchB "analyze gamma" gamma_analyzer =
        nameMatchB "gamma data please" gamma_analyzer) ∧
    toolScore "analyze gamma" gamma_analyzer =
      toolScore "gamma data please" gamma_analyzer :=
  ⟨⟨by decide, by decide⟩,
    toolScore_no_intent_term "analyze gamma" "gamma data please" gamma_analyzer
      (by decide) (by decide)⟩

/-- C3 counterexample: on the spec scenario query the computed
confidence is 4/7, which is not above 0.6, and the clarification gate
chooses Clarify, not Proceed. -/
theorem gamma_scenario_cex :
    (match_tool_to_query "show me the gamma ray formation analysis").confidence =
      some (4/7) ∧
    ¬ ((4 : ℚ)/7 > 3/5) ∧
    (check_clarification AVAILABLE_TOOLS
        ["depth_visualization", "gamma_ray_analyzer", "porosity_calculator",
         "lithology_classifier", "resistivity_analyzer"]
        ["sample_well_01"] "./output"
        "show me the gamma ray formation analysis").needsClarification = true := by
  decide

/-- C3 amended: the scenario query selects gamma_analyzer, but with
confidence 4/7 (about 0.571, below 0.6 and below the 0.7 gate), so
check_clarification asks for clarification and returns no plan. -/
theorem gamma_scenario_amended :
    (match_tool_to_query "show me the gamma ray formation analysis").tool =
      some "gamma_analyzer" ∧
    (match_tool_to_query "show me the gamma ray formation analysis").confidence =
      some (4/7) ∧
    (4 : ℚ)/7 < 3/5 ∧
    (check_clarification AVAILABLE_TOOLS
        ["depth_visualization", "gamma_ray_analyzer", "porosity_calculator",
         "lithology_classifier", "resistivity_analyzer"]
        ["sample_well_01"] "./output"
        "show me the gamma ray formation analysis").needsClarification = true ∧
    (check_clarification AVAILABLE_TOOLS
        ["depth_visualization", "gamma_ray_analyzer", "porosity_calculator",
         "lithology_classifier", "resistivity_analyzer"]
        ["sample_well_01"] "./output"
        "show me the gamma ray formation analysis").agentPlan = none := by
  decide

/-- C4 counterexample: with an empty file inventory a query whose
match confidence is 5/7 > 0.7 still makes the gate Proceed, and a
clarifying response built with an empty inventory contains no provide
input or upload suggestion. -/
theorem empty_inventory_cex :
    (match_tool_to_query "depth plot visualization curve log").confidence =
      some (5/7) ∧
    ((5 : ℚ)/7 > 7/10) ∧
    (check_clarification AVAILABLE_TOOLS ["depth_visualization"] [] "./output"
        "depth plot visualization curve log").needsClarification = false ∧
    (check_clarification AVAILABLE_TOOLS ["depth_visualization"] [] "./output"
        "hello").suggestions.length = 4 ∧
    (check_clarification AVAILABLE_TOOLS ["depth_visualization"] [] "./output"
        "hello").suggestions.all
      (fun s => !(strIn "provide" s || strIn "upload" s)) = true := by
  decide

/-- C4 amended: the clarification decision does not consult the
resource inventory at all: the gate clarifies exactly when the match
confidence (0 when absent) is not above 0.7, for every inventory,
including the empty one. -/
theorem clarification_ignores_inventory (tools : List Tool)
    (scripts files : List String) (out q : String) :
    (check_clarification tools scripts files out q).needsClarification = true ↔
      ¬ ((match_tool_to_query q).confidence.getD 0 > 7/10) := by
  by_cases h : (match_tool_to_query q).confidence.getD 0 > 7/10
  · simp [check_clarification, h]
  · simp [check_clarification, h]

/-- C8 counterexample: on a query matching nothing the result has no
selected tool and is a plain no-match record, but it carries no
confidence value at all rather than a confidence of 0. -/
theorem no_match_confidence_cex :
    (match_tool_to_query "hello").success = false ∧
    (match_tool_to_query "hello").tool = none ∧
    (match_tool_to_query "hello").confidence = none ∧
    (match_tool_to_query "hello").confidence ≠ some 0 := by
  decide

/-- C8 amended: if the catalog is empty, or more generally every tool
of the catalog scores zero against the query, matchToolOn returns the
degenerate no-match record: success false, no selected tool, and no
confidence key (rather than confidence 0); no exception is involved
(the function is total). -/
theorem match_all_zero_no_tool (catalog : List Tool) (q : String)
    (h : ∀ t ∈ catalog, toolScore (lowerStr q) t = 0) :
    (matchToolOn catalog q).success = false ∧
    (matchToolOn catalog q).tool = none ∧
    (matchToolOn catalog q).confidence = none ∧
    (matchToolOn [] q).tool = none := by
  refine ⟨(matchToolOn_all_zero catalog q h).1,
    (matchToolOn_all_zero catalog q h).2.1,
    (matchToolOn_all_zero catalog q h).2.2, ?_⟩
  exact (matchToolOn_all_zero [] q (by simp)).2.1

/-- C8 witness: the query hello scores zero on every catalog tool and
yields the no-match record. -/
theorem match_all_zero_no_tool_witness :
    (∀ t ∈ AVAILABLE_TOOLS, toolScore (lowerStr "hello") t = 0) ∧
    ((matchToolOn AVAILABLE_TOOLS "hello").success = false ∧
      (matchToolOn AVAILABLE_TOOLS "hello").tool = none ∧
      (matchToolOn AVAILABLE_TOOLS "hello").confidence = none ∧
      (matchToolOn [] "hello").tool = none) :=
  ⟨by decide, match_all_zero_no_tool AVAILABLE_TOOLS "hello" (by decide)⟩

/-- C9: whenever the identifier of a tool, underscores replaced by
spaces, occurs in the lower-cased query, the score is the keyword
count plus the +2 name bonus and the identifier is recorded among the
matched keywords. -/
theorem name_bonus_applies (q : String) (t : Tool)
    (h : strIn (spacedName t.name) (lowerStr q) = true) :
    toolScore (lowerStr q) t = (keywordHits (lowerStr q) t).length + 2 ∧
    t.name ∈ matchedKeywords (lowerStr q) t := by
  have hn : nameMatchB (lowerStr q) t = true := by
    simp [nameMatchB, h]
  refine ⟨by simp [toolScore, hn], ?_⟩
  simp [matchedKeywords, hn]

/-- C9 witness: the query run the porosity calculator mentions
porosity_calculator with the underscore spaced out. -/
theorem name_bonus_applies_witness :
    strIn (spacedName porosity_calculator.name)
        (lowerStr "run the porosity calculator") = true ∧
    (toolScore (lowerStr "run the porosity calculator") porosity_calculator =
        (keywordHits (lowerStr "run the porosity calculator")
          porosity_calculator).length + 2 ∧
      porosity_calculator.name ∈
        matchedKeywords (lowerStr "run the porosity calculator")
          porosity_calculator) :=
  ⟨by decide,
    name_bonus_applies "run the porosity calculator" porosity_calculator (by decide)⟩

/-- C10: on a query where every catalog tool scores zero, the matcher
result has no confidence field, and check_clarification reports
needsClarification true with the 0.3 fallback confidence. -/
theorem no_match_clarification_confidence (tools : List Tool)
    (scripts files : List String) (out q : String)
    (h : ∀ t ∈ AVAILABLE_TOOLS, toolScore (lowerStr q) t = 0) :
    (match_tool_to_query q).confidence = none ∧
    (check_clarification tools scripts files out q).needsClarification = true ∧
    (check_clarification tools scripts files out q).confidence = 3/10 := by
  have hc : (match_tool_to_query q).confidence = none :=
    (matchToolOn_all_zero AVAILABLE_TOOLS q h).2.2
  refine ⟨hc, ?_, ?_⟩ <;>
    simp [check_clarification, hc] <;> norm_num

/-- C10 witness: the query hello scores zero everywhere, and the
clarification response reports confidence 0.3. -/
theorem no_match_clarification_confidence_witness :
    (∀ t ∈ AVAILABLE_TOOLS, toolScore (lowerStr "hello") t = 0) ∧
    ((match_tool_to_query "hello").confidence = none ∧
      (check_clarification AVAILABLE_TOOLS [] [] "./output" "hello").needsClarification =
        true ∧
      (check_clarification AVAILABLE_TOOLS [] [] "./output" "hello").confidence = 3/10) :=
  ⟨by decide,
    no_match_clarification_confidence AVAILABLE_TOOLS [] [] "./output" "hello"
      (by decide)⟩

/-- C5 counterexample: a confident match (confidence 5/7, not below
0.3) against an empty file inventory does not produce an error
envelope: process_query silently falls back to sample_well_01 and
completes with a non-empty step list. -/
theorem confident_match_empty_inventory_cex :
    (match_tool_to_query "gamma ray formation geology analysis").confidence =
      some (5/7) ∧
    ¬ ((5 : ℚ)/7 < 3/10) ∧
    (process_query [] ["gamma_ray_analyzer"]
        "gamma ray formation geology analysis").status = "completed" ∧
    (process_query [] ["gamma_ray_analyzer"]
        "gamma ray formation geology analysis").status ≠ "error" ∧
    (process_query [] ["gamma_ray_analyzer"]
        "gamma ray formation geology analysis").steps ≠ [] := by
  decide

/-- C5 amended: there is no distinct no-input condition: whenever the
match confidence clears the 0.3 bar, process_query with an empty file
inventory substitutes the default file sample_well_01 and returns a
completed envelope with the full three-step sequence and no error
message. -/
theorem empty_inventory_uses_default_file (scripts : List String) (q : String)
    (h : ¬ ((match_tool_to_query q).confidence.getD 0 < 3/10)) :
    (process_query [] scripts q).status = "completed" ∧
    (process_query [] scripts q).steps.length = 3 ∧
    (process_query [] scripts q).finalResult.lasFile = "sample_well_01.las" ∧
    (process_query [] scripts q).errorMessage = none := by
  refine ⟨?_, ?_, ?_, ?_⟩ <;> simp [process_query, h]

/-- C5 witness: a concrete confident query with no files available
completes against the default file. -/
theorem empty_inventory_uses_default_file_witness :
    ¬ ((match_tool_to_query "gamma ray formation geology analysis").confidence.getD 0 <
        3/10) ∧
    ((process_query [] ["gamma_ray_analyzer"]
        "gamma ray formation geology analysis").status = "completed" ∧
      (process_query [] ["gamma_ray_analyzer"]
        "gamma ray formation geology analysis").steps.length = 3 ∧
      (process_query [] ["gamma_ray_analyzer"]
        "gamma ray formation geology analysis").finalResult.lasFile =
        "sample_well_01.las" ∧
      (process_query [] ["gamma_ray_analyzer"]
        "gamma ray formation geology analysis").errorMessage = none) :=
  ⟨by decide,
    empty_inventory_uses_default_file ["gamma_ray_analyzer"]
      "gamma ray formation geology analysis" (by decide)⟩

/-- C6 counterexample: an error envelope does not blank every final
result field: the reasoning field carries the error message. -/
theorem error_envelope_reasoning_cex :
    (process_query [] [] "hello").status = "error" ∧
    (process_query [] [] "hello").finalResult.reasoning ≠ "" := by
  decide

/-- C6 amended: every error envelope of process_query has an empty
step sequence, and its final result record keeps the full schema with
script, lasFile and tool blanked and confidence zeroed, while the
reasoning field carries the error message rather than a blank. -/
theorem error_envelope_shape (files scripts : List String) (q : String)
    (h : (process_query files scripts q).status = "error") :
    (process_query files scripts q).steps = [] ∧
    (process_query files scripts q).finalResult.script = "" ∧
    (process_query files scripts q).finalResult.lasFile = "" ∧
    (process_query files scripts q).finalResult.tool = "" ∧
    (process_query files scripts q).finalResult.confidence = 0 ∧
    (process_query files scripts q).finalResult.reasoning =
      "Error: " ++ noMatchMessage ∧
    (process_query files scripts q).errorMessage = some noMatchMessage := by
  by_cases hc : (match_tool_to_query q).confidence.getD 0 < 3/10
  · refine ⟨?_, ?_, ?_, ?_, ?_, ?_, ?_⟩ <;> simp [process_query, hc]
  · exfalso
    simp [process_query, hc] at h

/-- C6 witness: the unmatched query hello produces an error envelope
of exactly this shape. -/
theorem error_envelope_shape_witness :
    (process_query [] [] "hello").status = "error" ∧
    ((process_query [] [] "hello").steps = [] ∧
      (process_query [] [] "hello").finalResult.script = "" ∧
      (process_query [] [] "hello").finalResult.lasFile = "" ∧
      (process_query [] [] "hello").finalResult.tool = "" ∧
      (process_query [] [] "hello").finalResult.confidence = 0 ∧
      (process_query [] [] "hello").finalResult.reasoning =
        "Error: " ++ noMatchMessage ∧
      (process_query [] [] "hello").errorMessage = some noMatchMessage) :=
  ⟨by decide, error_envelope_shape [] [] "hello" (by decide)⟩

/-- The denominator of the confidence formula is positive. -/
lemma confDen_pos (t : Tool) : (0 : ℚ) < (t.keywords.length : ℚ) + 2 := by
  positivity

/-- Both confidence bounds, for every query and tool. -/
lemma toolConfidence_bounds (ql : String) (t : Tool) :
    0 ≤ toolConfidence ql t ∧ toolConfidence ql t ≤ 1 := by
  constructor
  · apply le_min
    · exact div_nonneg (by positivity) (le_of_lt (confDen_pos t))
    · exact zero_le_one
  · exact min_le_right _ _

/-- A higher score gives at least as high a confidence, denominator
fixed by the tool. -/
lemma toolConfidence_mono_score (ql1 ql2 : String) (t : Tool)
    (h : toolScore ql1 t ≤ toolScore ql2 t) :
    toolConfidence ql1 t ≤ toolConfidence ql2 t := by
  apply min_le_min _ le_rfl
  rw [div_eq_mul_inv, div_eq_mul_inv]
  apply mul_le_mul_of_nonneg_right
  · exact_mod_cast h
  · positivity

/-- The score is monotone when keyword and name matches are
preserved. -/
lemma toolScore_mono (q1 q2 : String) (t : Tool)
    (hk : ∀ k ∈ t.keywords, strIn k q1 = true → strIn k q2 = true)
    (hn : nameMatchB q1 t = true → nameMatchB q2 t = true) :
    toolScore q1 t ≤ toolScore q2 t := by
  unfold toolScore
  apply Nat.add_le_add
  · exact filterLength_mono _ _ t.keywords hk
  · by_cases h1 : nameMatchB q1 t = true
    · simp [h1, hn h1]
    · simp [h1]

/-- Every confidence the matcher reports comes from toolConfidence of
some catalog tool. -/
lemma match_confidence_from_tool (q : String) (c : ℚ)
    (h : (match_tool_to_query q).confidence = some c) :
    ∃ t, c = toolConfidence (lowerStr q) t := by
  cases hb : bestTool (lowerStr q) AVAILABLE_TOOLS with
  | none => simp [match_tool_to_query, matchToolOn, hb] at h
  | some t =>
      simp [match_tool_to_query, matchToolOn, hb] at h
      exact ⟨t, h.symm⟩

/-- C7: the per-tool confidence always lies in the closed interval
from 0 to 1, any confidence the matcher reports lies in that interval,
and making more of a tool's keywords (and name) appear in the query
never lowers that tool's confidence. -/
theorem confidence_bounded_and_monotone (q1 q2 : String) (t : Tool)
    (hk : ∀ k ∈ t.keywords, strIn k q1 = true → strIn k q2 = true)
    (hn : nameMatchB q1 t = true → nameMatchB q2 t = true) :
    (0 ≤ toolConfidence q1 t ∧ toolConfidence q1 t ≤ 1) ∧
    toolConfidence q1 t ≤ toolConfidence q2 t ∧
    ∀ c : ℚ, (match_tool_to_query q1).confidence = some c → 0 ≤ c ∧ c ≤ 1 := by
  refine ⟨toolConfidence_bounds q1 t, ?_, ?_⟩
  · exact toolConfidence_mono_score q1 q2 t (toolScore_mono q1 q2 t hk hn)
  · intro c hc
    obtain ⟨u, rfl⟩ := match_confidence_from_tool q1 c hc
    exact toolConfidence_bounds (lowerStr q1) u

/-- C7 witness: extending the query gamma to gamma ray preserves every
keyword match of gamma_analyzer, and the bounds hold at the concrete
confidence 1/7. -/
theorem confidence_bounded_and_monotone_witness :
    ((∀ k ∈ gamma_analyzer.keywords,
        strIn k "gamma" = true → strIn k "gamma ray" = true) ∧
      (nameMatchB "gamma" gamma_analyzer = true →
        nameMatchB "gamma ray" gamma_analyzer = true)) ∧
    ((0 ≤ toolConfidence "gamma" gamma_analyzer ∧
        toolConfidence "gamma" gamma_analyzer ≤ 1) ∧
      toolConfidence "gamma" gamma_analyzer ≤
        toolConfidence "gamma ray" gamma_analyzer ∧
      ∀ c : ℚ, (match_tool_to_query "gamma").confidence = some c →
        0 ≤ c ∧ c ≤ 1) :=
  ⟨⟨by decide, by decide⟩,
    confidence_bounded_and_monotone "gamma" "gamma ray" gamma_analyzer
      (by decide) (by decide)⟩

/-- Python max with a score key keeps the current item unless a later
item scores strictly higher, so it returns the first maximal element:
everything before it scores strictly less, everything after it scores
no more. -/
lemma pyMax_first_max (ql : String) :
    ∀ (l : List Tool) (acc : Tool),
      ∃ pre post, acc :: l = pre ++ pyMax ql acc l :: post ∧
        (∀ u ∈ pre, toolScore ql u < toolScore ql (pyMax ql acc l)) ∧
        (∀ u ∈ post, toolScore ql u ≤ toolScore ql (pyMax ql acc l)) := by
  intro l
  induction l with
  | nil =>
      intro acc
      exact ⟨[], [], rfl, by simp, by simp⟩
  | cons u us ih =>
      intro acc
      by_cases hgt : toolScore ql u > toolScore ql acc
      · have hstep : pyMax ql acc (u :: us) = pyMax ql u us := by
          simp [pyMax, hgt]
        obtain ⟨pre, post, hdecomp, hpre, hpost⟩ := ih u
        have humem : u ∈ pre ++ pyMax ql u us :: post := by
          rw [← hdecomp]
          exact List.mem_cons_self u us
        have hur : toolScore ql u ≤ toolScore ql (pyMax ql u us) := by
          rcases List.mem_append.mp humem with hp | hp
          · exact le_of_lt (hpre u hp)
          · rcases List.mem_cons.mp hp with heq | hp2
            · exact le_of_eq (congrArg (toolScore ql) heq)
            · exact hpost u hp2
        refine ⟨acc :: pre, post, ?_, ?_, ?_⟩
        · rw [hstep, List.cons_append, hdecomp]
        · intro v hv
          rw [hstep]
          rcases List.mem_cons.mp hv with rfl | hv2
          · exact lt_of_lt_of_le hgt hur
          · exact hpre v hv2
        · intro v hv
          rw [hstep]
          exact hpost v hv
      · have hstep : pyMax ql acc (u :: us) = pyMax ql acc us := by
          simp [pyMax, hgt]
        have hua : toolScore ql u ≤ toolScore ql acc := Nat.le_of_not_lt hgt
        obtain ⟨pre, post, hdecomp, hpre, hpost⟩ := ih acc
        cases pre with
        | nil =>
            simp only [List.nil_append] at hdecomp
            have h1 : acc = pyMax ql acc us := (List.cons.injEq _ _ _ _).mp hdecomp |>.1
            have h2 : us = post := (List.cons.injEq _ _ _ _).mp hdecomp |>.2
            refine ⟨[], u :: us, ?_, by simp, ?_⟩
            · rw [hstep, ← h1]
              simp
            · intro v hv
              rw [hstep, ← h1]
              rcases List.mem_cons.mp hv with rfl | hv2
              · exact hua
              · rw [h1]
                exact h2 ▸ hpost v (h2 ▸ hv2)
        | cons a pre1 =>
            simp only [List.cons_append] at hdecomp
            have h1 : acc = a := (List.cons.injEq _ _ _ _).mp hdecomp |>.1
            have h2 : us = pre1 ++ pyMax ql acc us :: post :=
              (List.cons.injEq _ _ _ _).mp hdecomp |>.2
            have h1s : toolScore ql acc = toolScore ql a := by rw [h1]
            have hacc : toolScore ql acc < toolScore ql (pyMax ql acc us) := by
              rw [h1s]
              exact hpre a (List.mem_cons_self a pre1)
            refine ⟨acc :: u :: pre1, post, ?_, ?_, ?_⟩
            · rw [hstep, List.cons_append, List.cons_append, ← h2]
            · intro v hv
              rw [hstep]
              rcases List.mem_cons.mp hv with rfl | hv2
              · exact hacc
              · rcases List.mem_cons.mp hv2 with rfl | hv3
                · exact lt_of_le_of_lt hua hacc
                · exact hpre v (List.mem_cons_of_mem a hv3)
            · intro v hv
              rw [hstep]
              exact hpost v hv

/-- Every tool of the static catalog declares exactly five
keywords. -/
lemma catalog_keyword_count : ∀ u ∈ AVAILABLE_TOOLS, u.keywords.length = 5 := by
  decide

/-- Between two tools with equally many keywords, the higher score
gives at least as high a confidence. -/
lemma toolConfidence_le_of_score_le (ql : String) (u t : Tool)
    (hlen : u.keywords.length = t.keywords.length)
    (h : toolScore ql u ≤ toolScore ql t) :
    toolConfidence ql u ≤ toolConfidence ql t := by
  unfold toolConfidence
  rw [hlen]
  apply min_le_min _ le_rfl
  rw [div_eq_mul_inv, div_eq_mul_inv]
  apply mul_le_mul_of_nonneg_right
  · exact_mod_cast h
  · positivity

/-- C1 counterexample: on the query gamma the matcher reports
confidence 1/7 for gamma_analyzer (five keywords, score 1), which
differs from the min(score / (keyword_count + 3), 1) = 1/8 the claim
prescribes. -/
theorem confidence_denominator_cex :
    (match_tool_to_query "gamma").tool = some "gamma_analyzer" ∧
    gamma_analyzer.keywords.length = 5 ∧
    toolScore (lowerStr "gamma") gamma_analyzer = 1 ∧
    (match_tool_to_query "gamma").confidence = some (1/7) ∧
    some ((1 : ℚ)/7) ≠ some (min ((1 : ℚ) / ((5 : ℚ) + 3)) 1) := by
  decide

/-- C1 amended: the confidence of the selected tool is
min(score / (keyword_count + 2), 1), and the selected tool is the
first scoring tool, in catalog iteration order, whose score (hence,
all catalog tools declaring equally many keywords, whose confidence)
is maximal. -/
theorem match_selects_first_max (q : String) (t : Tool)
    (h : bestTool (lowerStr q) AVAILABLE_TOOLS = some t) :
    (match_tool_to_query q).tool = some t.name ∧
    (match_tool_to_query q).confidence =
      some (min ((toolScore (lowerStr q) t : ℚ) /
        ((t.keywords.length : ℚ) + 2)) 1) ∧
    (∀ u ∈ scoringTools (lowerStr q) AVAILABLE_TOOLS,
      toolScore (lowerStr q) u ≤ toolScore (lowerStr q) t) ∧
    (∀ u ∈ scoringTools (lowerStr q) AVAILABLE_TOOLS,
      toolConfidence (lowerStr q) u ≤ toolConfidence (lowerStr q) t) ∧
    ∃ pre post, scoringTools (lowerStr q) AVAILABLE_TOOLS = pre ++ t :: post ∧
      ∀ u ∈ pre, toolScore (lowerStr q) u < toolScore (lowerStr q) t := by
  cases hs : scoringTools (lowerStr q) AVAILABLE_TOOLS with
  | nil => simp [bestTool, hs] at h
  | cons t0 rest =>
      have ht : pyMax (lowerStr q) t0 rest = t := by
        have := h
        simp [bestTool, hs] at this
        exact this
      obtain ⟨pre, post, hdecomp, hpre, hpost⟩ := pyMax_first_max (lowerStr q) rest t0
      rw [ht] at hdecomp hpre hpost
      have hmax : ∀ u ∈ t0 :: rest, toolScore (lowerStr q) u ≤ toolScore (lowerStr q) t := by
        intro u hu
        rw [hdecomp] at hu
        rcases List.mem_append.mp hu with hp | hp
        · exact le_of_lt (hpre u hp)
        · rcases List.mem_cons.mp hp with heq | hp2
          · exact le_of_eq (congrArg (toolScore (lowerStr q)) heq)
          · exact hpost u hp2
      have hsub : ∀ u ∈ t0 :: rest, u ∈ AVAILABLE_TOOLS := by
        intro u hu
        have hu2 : u ∈ scoringTools (lowerStr q) AVAILABLE_TOOLS := by
          rw [hs]
          exact hu
        exact List.mem_of_mem_filter hu2
      have htmem : t ∈ t0 :: rest := by
        rw [hdecomp]
        exact List.mem_append.mpr (Or.inr (List.mem_cons_self t post))
      refine ⟨?_, ?_, hmax, ?_, pre, post, hdecomp, hpre⟩
      · simp [match_tool_to_query, matchToolOn, h]
      · simp [match_tool_to_query, matchToolOn, h, toolConfidence]
      · intro u hu
        exact toolConfidence_le_of_score_le (lowerStr q) u t
          (by rw [catalog_keyword_count u (hsub u hu),
                catalog_keyword_count t (hsub t htmem)])
          (hmax u hu)

/-- C1 witness: on the query gamma the catalog selects gamma_analyzer
as the first maximal scorer with confidence min(1/7, 1). -/
theorem match_selects_first_max_witness :
    bestTool (lowerStr "gamma") AVAILABLE_TOOLS = some gamma_analyzer ∧
    ((match_tool_to_query "gamma").tool = some gamma_analyzer.name ∧
      (match_tool_to_query "gamma").confidence =
        some (min ((toolScore (lowerStr "gamma") gamma_analyzer : ℚ) /
          ((gamma_analyzer.keywords.length : ℚ) + 2)) 1) ∧
      (∀ u ∈ scoringTools (lowerStr "gamma") AVAILABLE_TOOLS,
        toolScore (lowerStr "gamma") u ≤ toolScore (lowerStr "gamma") gamma_analyzer) ∧
      (∀ u ∈ scoringTools (lowerStr "gamma") AVAILABLE_TOOLS,
        toolConfidence (lowerStr "gamma") u ≤
          toolConfidence (lowerStr "gamma") gamma_analyzer) ∧
      ∃ pre post,
        scoringTools (lowerStr "gamma") AVAILABLE_TOOLS = pre ++ gamma_analyzer :: post ∧
        ∀ u ∈ pre,
          toolScore (lowerStr "gamma") u < toolScore (lowerStr "gamma") gamma_analyzer) :=
  ⟨by decide, match_selects_first_max "gamma" gamma_analyzer (by decide)⟩

end Embedding

end LasRouter
